import Mathlib

/-!
Verification of the socialcrabs automation core against its specification.

The development shallowly embeds the parts of the TypeScript source that the
spec's claims are about:

* `RateLimiter` (src/utils/rate-limiter.ts): the sliding-window quota store,
  its `check`/`record`/`getKey`/`getLimit` operations, and the shipped
  rate-limit configuration from src/utils/config.ts.
* `BrowserManager.saveSession` / `BrowserManager.restoreSession`
  (src/browser/manager.ts): session persistence with the critical-cookie
  write guard and the 7-day soft expiry.
* `BasePlatformHandler.sanitizeText` and the two revisions of
  `BasePlatformHandler.clickHuman` (src/platforms/base.ts).
* The platform action methods `like`/`comment`/`follow`/`connect`
  (src/platforms/linkedin.ts, src/platforms/instagram.ts), modelled over an
  abstract page environment that records which selectors match before and
  after the mutating click, which clicks complete, and which waits resolve.

Wall-clock side channels (`timestamp`/`duration` fields of results, random
delays) and file/driver I/O are not modelled; the in-memory state that the
source treats as authoritative is.
-/

namespace SocialCrabs

/-- The `Platform` union type from src/types/index.ts. -/
inductive Platform
  | instagram
  | twitter
  | linkedin
deriving DecidableEq, Repr

/-- The `ActionType` union type from src/types/index.ts. -/
inductive ActionType
  | like
  | comment
  | follow
  | unfollow
  | dm
  | post
  | retweet
  | reply
  | connect
  | view_story
  | view_profile
deriving DecidableEq, Repr

/-- The string literal each `ActionType` member denotes in the source. -/
def ActionType.str : ActionType → String
  | .like => "like"
  | .comment => "comment"
  | .follow => "follow"
  | .unfollow => "unfollow"
  | .dm => "dm"
  | .post => "post"
  | .retweet => "retweet"
  | .reply => "reply"
  | .connect => "connect"
  | .view_story => "view_story"
  | .view_profile => "view_profile"

/-- One entry of the rate-limit store (`ActionRecord` in rate-limiter.ts):
a millisecond timestamp and the concrete action that was recorded. -/
structure ActionRecord where
  timestamp : Int
  action : ActionType
deriving DecidableEq, Repr

/-- `DAY_MS = 24 * 60 * 60 * 1000` from rate-limiter.ts. -/
def DAY_MS : Int := 24 * 60 * 60 * 1000

/-- The `RateLimitStatus` record returned by `RateLimiter.check`. -/
structure RateLimitStatus where
  remaining : Nat
  total : Nat
  resetAt : Int
  allowed : Bool
deriving DecidableEq, Repr

/-- The `RateLimiter` class state: the persisted per-platform, per-key list of
action records, and the configured ceilings.  A JS `Record<string, number>`
field access that may be `undefined` is modelled as `Option Nat`. -/
structure RateLimiter where
  store : Platform → String → List ActionRecord
  limits : Platform → String → Option Nat

/-- `RateLimiter.getKey`: normalizes action names to the limit keys.
`keyMap[action] || action` collapses story/profile views and retweets into
`like`, replies into `comment` and connects into `follow`. -/
def RateLimiter.getKey (action : ActionType) : String :=
  match action with
  | .view_story => "like"
  | .view_profile => "like"
  | .retweet => "like"
  | .reply => "comment"
  | .connect => "follow"
  | a => a.str

/-- `RateLimiter.getLimit`: `this.limits[platform]?.[key] || 50`.  The JS
`||` falls back to 50 both when the key is absent (`undefined`, here `none`)
and when the configured number is the falsy value `0`. -/
def RateLimiter.getLimit (rl : RateLimiter) (platform : Platform) (key : String) : Nat :=
  match rl.limits platform key with
  | some n => if n = 0 then 50 else n
  | none => 50

/-- `RateLimiter.check`: prunes entries older than 24 hours from the key's
list (the pruned list is written back to the store), then reports
`remaining = Math.max(0, limit - count)` (naturally truncated subtraction on
`Nat`), `total = limit`, `resetAt` from the oldest surviving entry, and
`allowed = remaining > 0`.  `now` stands for `Date.now()`. -/
def RateLimiter.check (rl : RateLimiter) (platform : Platform) (action : ActionType)
    (now : Int) : RateLimitStatus × RateLimiter :=
  let key := RateLimiter.getKey action
  let limit := rl.getLimit platform key
  let dayAgo := now - DAY_MS
  let pruned := (rl.store platform key).filter (fun r => dayAgo < r.timestamp)
  let count := pruned.length
  let remaining := limit - count
  let resetAt :=
    match pruned with
    | [] => now + DAY_MS
    | r :: _ => r.timestamp + DAY_MS
  ({ remaining := remaining
     total := limit
     resetAt := resetAt
     allowed := decide (0 < remaining) },
   { rl with
     store := fun p k =>
       if p = platform ∧ k = key then pruned else rl.store p k })

/-- `RateLimiter.record`: appends a `{timestamp: Date.now(), action}` entry
under the normalized key (the synchronous file write is not modelled; the
in-memory store is authoritative). -/
def RateLimiter.record (rl : RateLimiter) (platform : Platform) (action : ActionType)
    (now : Int) : RateLimiter :=
  let key := RateLimiter.getKey action
  { rl with
    store := fun p k =>
      if p = platform ∧ k = key then
        rl.store platform key ++ [{ timestamp := now, action := action }]
      else rl.store p k }

/-- The shipped rate-limit configuration: `loadConfig().rateLimits` from
src/utils/config.ts evaluated with no environment overrides.  Note the
hardcoded `connect: 0` entries for instagram and twitter. -/
def defaultRateLimits : Platform → String → Option Nat := fun p k =>
  match p, k with
  | .instagram, "like" => some 100
  | .instagram, "comment" => some 30
  | .instagram, "follow" => some 50
  | .instagram, "dm" => some 50
  | .instagram, "post" => some 10
  | .instagram, "connect" => some 0
  | .twitter, "like" => some 100
  | .twitter, "comment" => some 50
  | .twitter, "follow" => some 50
  | .twitter, "dm" => some 20
  | .twitter, "post" => some 10
  | .twitter, "connect" => some 0
  | .linkedin, "like" => some 100
  | .linkedin, "comment" => some 30
  | .linkedin, "follow" => some 15
  | .linkedin, "dm" => some 40
  | .linkedin, "post" => some 5
  | .linkedin, "connect" => some 15
  | _, _ => none

/-- A cookie as used by the session guard: only `name` and `value` are ever
inspected by the manager's logic; the remaining attributes (domain, path,
expiry, flags) are carried through unchanged by the source and elided here. -/
structure Cookie where
  name : String
  value : String
deriving DecidableEq, Repr

/-- The `Session` record persisted to `sessions/<platform>.json`. -/
structure Session where
  platform : Platform
  cookies : List Cookie
  localStorage : List (String × String)
  createdAt : Int
  updatedAt : Int
deriving DecidableEq, Repr

/-- Content of one on-disk session file as seen by `restoreSession`:
`none` models a file whose `JSON.parse` throws (malformed state). -/
abbrev SessionFile := Option Session

/-- The `criticalCookies` table in `BrowserManager.saveSession`: the
platform's designated authentication cookie. -/
def criticalCookie : Platform → String
  | .linkedin => "li_at"
  | .twitter => "auth_token"
  | .instagram => "sessionid"

/-- Outcome of a `saveSession` call: the early return when no context exists,
the guarded skip, or an actual write. -/
inductive SaveOutcome
  | noContext
  | skipped
  | saved
deriving DecidableEq, Repr

/-- The `BrowserManager` state the session lifecycle touches: per-platform
browser contexts (modelled by the cookie set the driver would report) and the
per-platform on-disk session files. -/
structure ManagerState where
  contexts : Platform → Option (List Cookie)
  files : Platform → Option SessionFile

/-- `BrowserManager.saveSession`: returns early when the platform has no
context; skips the write when the context's cookies lack the platform's
critical cookie with a non-empty value (JS truthiness of `c.value`); otherwise
writes a fresh `Session` over the platform's file.  `localStore` stands for
the page's localStorage snapshot and `now` for `Date.now()`. -/
def saveSession (st : ManagerState) (platform : Platform)
    (localStore : List (String × String)) (now : Int) : SaveOutcome × ManagerState :=
  match st.contexts platform with
  | none => (.noContext, st)
  | some cookies =>
    let requiredCookie := criticalCookie platform
    if ¬ cookies.any (fun c => c.name = requiredCookie ∧ c.value ≠ "") then
      (.skipped, st)
    else
      let session : Session :=
        { platform := platform
          cookies := cookies
          localStorage := localStore
          createdAt := now
          updatedAt := now }
      (.saved,
       { st with
         files := fun p => if p = platform then some (some session) else st.files p })

/-- `maxAge = 7 * 24 * 60 * 60 * 1000` from `BrowserManager.restoreSession`. -/
def SESSION_MAX_AGE : Int := 7 * 24 * 60 * 60 * 1000

/-- `BrowserManager.restoreSession`: `false` when the session file is absent,
when parsing it throws (caught and logged), or when the stored `updatedAt` is
more than 7 days before `now`; in those cases nothing is touched and in
particular the stale file is not deleted.  On success the session's cookies
are added to the platform's context.  The function is total: no case raises
to the caller. -/
def restoreSession (st : ManagerState) (platform : Platform) (now : Int) :
    Bool × ManagerState :=
  match st.files platform with
  | none => (false, st)
  | some none => (false, st)
  | some (some session) =>
    if SESSION_MAX_AGE < now - session.updatedAt then
      (false, st)
    else
      (true,
       { st with
         contexts := fun p =>
           if p = platform then
             some ((st.contexts platform).getD [] ++ session.cookies)
           else st.contexts p })

/-- The characters the `\s` class of the sanitization regexes matches on the
inputs this system handles (ASCII whitespace). -/
def isSpaceChar (c : Char) : Bool :=
  c = ' ' ∨ c = '\t' ∨ c = '\n' ∨ c = '\r' ∨ c = '\x0b' ∨ c = '\x0c'

/-- Global replacement of `/\s*D\s*/` by `repl` for a dash character `D`,
as `String.prototype.replace` performs it: at each position the scanner
greedily consumes whitespace, requires the dash, greedily consumes trailing
whitespace, and resumes after the match; on failure it emits one character
and retries at the next position.  `fuel` bounds the number of steps; every
step consumes at least one character, so `length + 1` fuel always suffices. -/
def replaceDashFuel (dash : Char) (repl : List Char) : Nat → List Char → List Char
  | 0, l => l
  | _ + 1, [] => []
  | fuel + 1, c :: rest =>
    match (c :: rest).dropWhile isSpaceChar with
    | d :: after =>
      if d = dash then
        repl ++ replaceDashFuel dash repl fuel (after.dropWhile isSpaceChar)
      else
        c :: replaceDashFuel dash repl fuel rest
    | [] => c :: replaceDashFuel dash repl fuel rest

/-- Global replacement of `/,\s*S/` by `repl` (used with `S = ','` to
collapse double commas and `S = '.'` to collapse comma-before-period),
with the same scanning semantics and fuel convention as `replaceDashFuel`. -/
def collapseFuel (second : Char) (repl : List Char) : Nat → List Char → List Char
  | 0, l => l
  | _ + 1, [] => []
  | fuel + 1, c :: rest =>
    if c = ',' then
      match rest.dropWhile isSpaceChar with
      | d :: after =>
        if d = second then repl ++ collapseFuel second repl fuel after
        else c :: collapseFuel second repl fuel rest
      | [] => c :: collapseFuel second repl fuel rest
    else
      c :: collapseFuel second repl fuel rest

/-- `trim()` on a character list: strip leading and trailing whitespace. -/
def trimChars (l : List Char) : List Char :=
  ((l.dropWhile isSpaceChar).reverse.dropWhile isSpaceChar).reverse

/-- `BasePlatformHandler.sanitizeText` from the notification-enabled base
handler: em-dashes (with surrounding whitespace) become `", "`, en-dashes
likewise become `", "` (the code replaces both with a comma, whatever the
adjacent doc comment says), then double commas collapse to `","`,
comma-before-period collapses to `"."`, and the result is trimmed. -/
def sanitizeText (text : String) : String :=
  let s1 := replaceDashFuel '—' ", ".toList (text.toList.length + 1) text.toList
  let s2 := replaceDashFuel '–' ", ".toList (s1.length + 1) s1
  let s3 := collapseFuel ',' [','] (s2.length + 1) s2
  let s4 := collapseFuel '.' ['.'] (s3.length + 1) s3
  String.mk (trimChars s4)

/-- The three click strategies of the fallback ladder. -/
inductive ClickTier
  | standard
  | forced
  | dispatchEvent
deriving DecidableEq, Repr

/-- Abstract click behaviour of the page: whether each strategy would
complete without throwing for a given selector. -/
structure ClickEnv where
  standardOk : String → Bool
  forcedOk : String → Bool
  dispatchOk : String → Bool

/-- `BasePlatformHandler.clickHuman`, fallback-ladder revision: try
`element.click({timeout: 5000})`; on any failure retry with
`click({force: true, timeout: 5000})`; on failure again dispatch a synthetic
`click` event via `element.evaluate`.  Returns the tiers attempted in order
and whether the call completes without throwing (the scroll and the
pre-click delay have no observable effect here). -/
def clickHuman (env : ClickEnv) (selector : String) : List ClickTier × Bool :=
  if env.standardOk selector then ([.standard], true)
  else if env.forcedOk selector then ([.standard, .forced], true)
  else ([.standard, .forced, .dispatchEvent], env.dispatchOk selector)

/-- `BasePlatformHandler.clickHuman`, plain revision (as in
src/platforms/base.ts of this snapshot): a single `element.click()` with the
page's default timeout; a failure propagates to the caller with no fallback
tier attempted. -/
def clickHumanBase (env : ClickEnv) (selector : String) : List ClickTier × Bool :=
  ([.standard], env.standardOk selector)

/-- The `ActionResult` record the handlers return.  The wall-clock fields
(`timestamp`, `duration`) and the free-form `message`/`details` enrichment
are not modelled; `rateLimit` carries the window status observed at check
time exactly as the source attaches it. -/
structure ActionResult where
  success : Bool
  platform : Platform
  action : ActionType
  target : String
  error : Option String
  rateLimit : Option RateLimitStatus
deriving DecidableEq, Repr

/-- `BasePlatformHandler.createResult`: a success record (the asynchronous
fire-and-forget notification dispatch has no effect on the result). -/
def createResult (platform : Platform) (action : ActionType) (target : String)
    (rateLimit : RateLimitStatus) : ActionResult :=
  { success := true
    platform := platform
    action := action
    target := target
    error := none
    rateLimit := some rateLimit }

/-- `BasePlatformHandler.createErrorResult`: a failure record carrying the
error string and the observed rate-limit status. -/
def createErrorResult (platform : Platform) (action : ActionType) (target : String)
    (error : String) (rateLimit : RateLimitStatus) : ActionResult :=
  { success := false
    platform := platform
    action := action
    target := target
    error := some error
    rateLimit := some rateLimit }

/-- Abstract observable behaviour of the external page during one action:
whether navigation succeeds, which selectors match an element before and
after the mutating click (`post` is what a verification read-back sees),
which element waits resolve in time, which `clickHuman` calls complete, and
the `String(error)` text of a failing step. -/
structure PageEnv where
  nav : String → Bool
  pre : String → Bool
  post : String → Bool
  wait : String → Bool
  click : String → Bool
  errMsg : String → String

/-- Everything one action invocation produces: the returned `ActionResult`,
the rate limiter afterwards, whether the browser was touched (navigation
attempted), how many quota records were appended, and the text typed into an
input, if any. -/
structure ActionOutcome where
  result : ActionResult
  limiter : RateLimiter
  navigated : Bool
  recorded : Nat
  typed : Option String

namespace LinkedInSel

def likeButton : String := "button[aria-label*=\"Like\"], span.react-button__text"

def unlikeButton : String := "button[aria-pressed=\"true\"][aria-label*=\"React\"]"

def commentButton : String := "button[aria-label*=\"Comment\"]"

def commentInput : String :=
  "div.ql-editor[data-placeholder*=\"Add a comment\"], div[contenteditable=\"true\"]"

def commentSubmit : String := "button.comments-comment-box__submit-button"

def connectButton : String := "button[aria-label*=\"Connect\"]"

def pendingButton : String := "button[aria-label*=\"Pending\"]"

def followButton : String := "button[aria-label*=\"Follow\"]"

def followingButton : String := "button[aria-label*=\"Following\"]"

def messageButton : String := "button[aria-label*=\"Message\"]"

def addNoteButton : String := "button[aria-label*=\"Add a note\"]"

def noteInput : String := "textarea[name=\"message\"]"

def sendButton : String := "button[aria-label*=\"Send\"]"

end LinkedInSel

namespace InstagramSel

def likeButton : String := "svg[aria-label=\"Like\"], span svg[aria-label=\"Like\"]"

def unlikeButton : String := "svg[aria-label=\"Unlike\"]"

def followButton : String := "button:has-text(\"Follow\"):not(:has-text(\"Following\"))"

def unfollowButton : String := "button:has-text(\"Following\")"

end InstagramSel

/-- `LinkedInHandler.like`: quota check (rate-limited failure returns before
any browser interaction); navigate; already-liked short-circuits to success
with no record; missing like button is a failure with no record; a throwing
click is caught into a failure with no record; otherwise the action is
recorded and success returned — with no verification read-back. -/
def linkedInLike (env : PageEnv) (rl : RateLimiter) (now : Int) (url : String) :
    ActionOutcome :=
  let checked := rl.check .linkedin .like now
  let status := checked.1
  let rl1 := checked.2
  if !status.allowed then
    { result := createErrorResult .linkedin .like url "Rate limit exceeded" status
      limiter := rl1, navigated := false, recorded := 0, typed := none }
  else if !env.nav url then
    { result := createErrorResult .linkedin .like url (env.errMsg url) status
      limiter := rl1, navigated := true, recorded := 0, typed := none }
  else if env.pre LinkedInSel.unlikeButton then
    { result := createResult .linkedin .like url status
      limiter := rl1, navigated := true, recorded := 0, typed := none }
  else if !env.pre LinkedInSel.likeButton then
    { result := createErrorResult .linkedin .like url "Like button not found" status
      limiter := rl1, navigated := true, recorded := 0, typed := none }
  else if !env.click LinkedInSel.likeButton then
    { result := createErrorResult .linkedin .like url (env.errMsg LinkedInSel.likeButton) status
      limiter := rl1, navigated := true, recorded := 0, typed := none }
  else
    { result := createResult .linkedin .like url status
      limiter := rl1.record .linkedin .like now
      navigated := true, recorded := 1, typed := none }

/-- `InstagramHandler.like`: as `linkedInLike`, except that after the click a
verification read-back checks for the Unlike button and the action is
recorded (and success returned) only when that read-back confirms it;
otherwise the result is the `"Like action failed"` failure with no record. -/
def instagramLike (env : PageEnv) (rl : RateLimiter) (now : Int) (url : String) :
    ActionOutcome :=
  let checked := rl.check .instagram .like now
  let status := checked.1
  let rl1 := checked.2
  if !status.allowed then
    { result := createErrorResult .instagram .like url "Rate limit exceeded" status
      limiter := rl1, navigated := false, recorded := 0, typed := none }
  else if !env.nav url then
    { result := createErrorResult .instagram .like url (env.errMsg url) status
      limiter := rl1, navigated := true, recorded := 0, typed := none }
  else if env.pre InstagramSel.unlikeButton then
    { result := createResult .instagram .like url status
      limiter := rl1, navigated := true, recorded := 0, typed := none }
  else if !env.pre InstagramSel.likeButton then
    { result := createErrorResult .instagram .like url "Like button not found" status
      limiter := rl1, navigated := true, recorded := 0, typed := none }
  else if !env.click InstagramSel.likeButton then
    { result := createErrorResult .instagram .like url (env.errMsg InstagramSel.likeButton) status
      limiter := rl1, navigated := true, recorded := 0, typed := none }
  else if env.post InstagramSel.unlikeButton then
    { result := createResult .instagram .like url status
      limiter := rl1.record .instagram .like now
      navigated := true, recorded := 1, typed := none }
  else
    { result := createErrorResult .instagram .like url "Like action failed" status
      limiter := rl1, navigated := true, recorded := 0, typed := none }

/-- `LinkedInHandler.comment`: quota check; navigate; optionally click the
comment button when present; wait for the comment input (missing input is a
failure with no record); click and type the payload text verbatim
(`page.keyboard.type(payload.text)` — no normalization pass); click the
submit button when present; record the action and return success.  Any
throwing click is caught into a failure with no record. -/
def linkedInComment (env : PageEnv) (rl : RateLimiter) (now : Int)
    (url text : String) : ActionOutcome :=
  let checked := rl.check .linkedin .comment now
  let status := checked.1
  let rl1 := checked.2
  if !status.allowed then
    { result := createErrorResult .linkedin .comment url "Rate limit exceeded" status
      limiter := rl1, navigated := false, recorded := 0, typed := none }
  else if !env.nav url then
    { result := createErrorResult .linkedin .comment url (env.errMsg url) status
      limiter := rl1, navigated := true, recorded := 0, typed := none }
  else if env.pre LinkedInSel.commentButton ∧ !env.click LinkedInSel.commentButton then
    { result := createErrorResult .linkedin .comment url
        (env.errMsg LinkedInSel.commentButton) status
      limiter := rl1, navigated := true, recorded := 0, typed := none }
  else if !env.wait LinkedInSel.commentInput then
    { result := createErrorResult .linkedin .comment url "Comment input not found" status
      limiter := rl1, navigated := true, recorded := 0, typed := none }
  else if !env.click LinkedInSel.commentInput then
    { result := createErrorResult .linkedin .comment url
        (env.errMsg LinkedInSel.commentInput) status
      limiter := rl1, navigated := true, recorded := 0, typed := none }
  else if env.pre LinkedInSel.commentSubmit ∧ !env.click LinkedInSel.commentSubmit then
    { result := createErrorResult .linkedin .comment url
        (env.errMsg LinkedInSel.commentSubmit) status
      limiter := rl1, navigated := true, recorded := 0, typed := some text }
  else
    { result := createResult .linkedin .comment url status
      limiter := rl1.record .linkedin .comment now
      navigated := true, recorded := 1, typed := some text }

/-- `LinkedInHandler.follow`: quota check under the `follow` family;
navigate; an already-followed target short-circuits to success with no
record; a missing follow button is a failure with no record; otherwise click,
record, success — with no verification read-back. -/
def linkedInFollow (env : PageEnv) (rl : RateLimiter) (now : Int) (username : String) :
    ActionOutcome :=
  let checked := rl.check .linkedin .follow now
  let status := checked.1
  let rl1 := checked.2
  if !status.allowed then
    { result := createErrorResult .linkedin .follow username "Rate limit exceeded" status
      limiter := rl1, navigated := false, recorded := 0, typed := none }
  else if !env.nav username then
    { result := createErrorResult .linkedin .follow username (env.errMsg username) status
      limiter := rl1, navigated := true, recorded := 0, typed := none }
  else if env.pre LinkedInSel.followingButton then
    { result := createResult .linkedin .follow username status
      limiter := rl1, navigated := true, recorded := 0, typed := none }
  else if !env.pre LinkedInSel.followButton then
    { result := createErrorResult .linkedin .follow username "Follow button not found" status
      limiter := rl1, navigated := true, recorded := 0, typed := none }
  else if !env.click LinkedInSel.followButton then
    { result := createErrorResult .linkedin .follow username
        (env.errMsg LinkedInSel.followButton) status
      limiter := rl1, navigated := true, recorded := 0, typed := none }
  else
    { result := createResult .linkedin .follow username status
      limiter := rl1.record .linkedin .follow now
      navigated := true, recorded := 1, typed := none }

/-- `InstagramHandler.follow`: as `linkedInFollow` but with a verification
read-back after the click — the record happens only when the Following
button is then visible, otherwise the `"Follow action failed"` failure is
returned with no record. -/
def instagramFollow (env : PageEnv) (rl : RateLimiter) (now : Int) (username : String) :
    ActionOutcome :=
  let checked := rl.check .instagram .follow now
  let status := checked.1
  let rl1 := checked.2
  if !status.allowed then
    { result := createErrorResult .instagram .follow username "Rate limit exceeded" status
      limiter := rl1, navigated := false, recorded := 0, typed := none }
  else if !env.nav username then
    { result := createErrorResult .instagram .follow username (env.errMsg username) status
      limiter := rl1, navigated := true, recorded := 0, typed := none }
  else if env.pre InstagramSel.unfollowButton then
    { result := createResult .instagram .follow username status
      limiter := rl1, navigated := true, recorded := 0, typed := none }
  else if !env.pre InstagramSel.followButton then
    { result := createErrorResult .instagram .follow username "Follow button not found" status
      limiter := rl1, navigated := true, recorded := 0, typed := none }
  else if !env.click InstagramSel.followButton then
    { result := createErrorResult .instagram .follow username
        (env.errMsg InstagramSel.followButton) status
      limiter := rl1, navigated := true, recorded := 0, typed := none }
  else if env.post InstagramSel.unfollowButton then
    { result := createResult .instagram .follow username status
      limiter := rl1.record .instagram .follow now
      navigated := true, recorded := 1, typed := none }
  else
    { result := createErrorResult .instagram .follow username "Follow action failed" status
      limiter := rl1, navigated := true, recorded := 0, typed := none }

/-- JS truthiness of the optional `payload.note` string. -/
def noteTruthy (note : Option String) : Bool :=
  match note with
  | some s => s ≠ ""
  | none => false

/-- `LinkedInHandler.connect`: the quota check and the record both use the
`follow` action ("Connect counts against follow limit").  An existing
Message button (already connected) or Pending button short-circuits to
success with no record; a missing Connect button is a failure with no
record; otherwise click Connect, optionally add the note, click Send when
present, record under `follow`, success. -/
def linkedInConnect (env : PageEnv) (rl : RateLimiter) (now : Int)
    (profileUrl : String) (note : Option String) : ActionOutcome :=
  let checked := rl.check .linkedin .follow now
  let status := checked.1
  let rl1 := checked.2
  if !status.allowed then
    { result := createErrorResult .linkedin .connect profileUrl "Rate limit exceeded" status
      limiter := rl1, navigated := false, recorded := 0, typed := none }
  else if !env.nav profileUrl then
    { result := createErrorResult .linkedin .connect profileUrl (env.errMsg profileUrl) status
      limiter := rl1, navigated := true, recorded := 0, typed := none }
  else if env.pre LinkedInSel.messageButton then
    { result := createResult .linkedin .connect profileUrl status
      limiter := rl1, navigated := true, recorded := 0, typed := none }
  else if env.pre LinkedInSel.pendingButton then
    { result := createResult .linkedin .connect profileUrl status
      limiter := rl1, navigated := true, recorded := 0, typed := none }
  else if !env.pre LinkedInSel.connectButton then
    { result := createErrorResult .linkedin .connect profileUrl "Connect button not found" status
      limiter := rl1, navigated := true, recorded := 0, typed := none }
  else if !env.click LinkedInSel.connectButton then
    { result := createErrorResult .linkedin .connect profileUrl
        (env.errMsg LinkedInSel.connectButton) status
      limiter := rl1, navigated := true, recorded := 0, typed := none }
  else if noteTruthy note ∧ env.pre LinkedInSel.addNoteButton
      ∧ !env.click LinkedInSel.addNoteButton then
    { result := createErrorResult .linkedin .connect profileUrl
        (env.errMsg LinkedInSel.addNoteButton) status
      limiter := rl1, navigated := true, recorded := 0, typed := none }
  else if env.pre LinkedInSel.sendButton ∧ !env.click LinkedInSel.sendButton then
    { result := createErrorResult .linkedin .connect profileUrl
        (env.errMsg LinkedInSel.sendButton) status
      limiter := rl1, navigated := true, recorded := 0
      typed := if noteTruthy note ∧ env.pre LinkedInSel.addNoteButton
          ∧ env.wait LinkedInSel.noteInput then note else none }
  else
    { result := createResult .linkedin .connect profileUrl status
      limiter := rl1.record .linkedin .follow now
      navigated := true, recorded := 1
      typed := if noteTruthy note ∧ env.pre LinkedInSel.addNoteButton
          ∧ env.wait LinkedInSel.noteInput then note else none }

/-! ## Theorems -/

/-- Claim C1: for every platform `P` and action family `F` with configured
ceiling `L`, if exactly `N` recorded actions of `F`'s family for `P` have
timestamps within the trailing 24 hours at the moment of the call (the
filter keeps precisely `N` entries), then `check` reports
`remaining = max(0, L - N)`, `total = L`, and `allowed = (remaining > 0)`. -/
theorem check_reports_window (rl : RateLimiter) (P : Platform) (F : ActionType)
    (L N : Nat) (now : Int)
    (hL : rl.limits P (RateLimiter.getKey F) = some L) (hL0 : 0 < L)
    (hN : ((rl.store P (RateLimiter.getKey F)).filter
        (fun r => now - DAY_MS < r.timestamp)).length = N) :
    ((rl.check P F now).1.remaining : Int) = max 0 ((L : Int) - (N : Int)) ∧
    (rl.check P F now).1.total = L ∧
    (rl.check P F now).1.allowed = decide (0 < (rl.check P F now).1.remaining) := by
  have hlim : rl.getLimit P (RateLimiter.getKey F) = L := by
    unfold RateLimiter.getLimit
    rw [hL]
    simp [Nat.pos_iff_ne_zero.mp hL0]
  refine ⟨?_, ?_, ?_⟩ <;> (simp only [RateLimiter.check, hlim, hN]; try rfl)
  all_goals omega

/-- Concrete run of `check_reports_window`: linkedin comments with the
shipped ceiling 30 and a store holding two in-window entries and one stale
entry report `remaining = 28`. -/
def limiterC1 : RateLimiter :=
  { store := fun p k =>
      if p = .linkedin ∧ k = "comment" then
        [⟨DAY_MS + 500, .comment⟩, ⟨DAY_MS + 100, .reply⟩, ⟨3, .comment⟩]
      else []
    limits := defaultRateLimits }

/-- Witness for claim C1 at the concrete limiter `limiterC1`. -/
theorem check_reports_window_witness :
    ((limiterC1.check .linkedin .comment (2 * DAY_MS)).1.remaining : Int)
        = max 0 ((30 : Int) - (2 : Int)) ∧
    (limiterC1.check .linkedin .comment (2 * DAY_MS)).1.total = 30 ∧
    (limiterC1.check .linkedin .comment (2 * DAY_MS)).1.allowed
        = decide (0 < (limiterC1.check .linkedin .comment (2 * DAY_MS)).1.remaining) :=
  check_reports_window limiterC1 .linkedin .comment 30 2 (2 * DAY_MS)
    (by decide) (by decide) (by decide)

/-- Claim C9: the quota key used by both `check` and `record` sends
`view_story`, `view_profile` and `retweet` to the `like` family, `reply` to
`comment`, and `connect` to `follow`, so each collapsed pair reads the same
window and ceiling (`check` agrees on the two types) and appends into the
same window (`record` grows the shared key); every other action type keys
its own name. -/
theorem quota_families_collapse (rl : RateLimiter) (p : Platform) (now : Int) :
    RateLimiter.getKey .view_story = "like" ∧
    RateLimiter.getKey .view_profile = "like" ∧
    RateLimiter.getKey .retweet = "like" ∧
    RateLimiter.getKey .reply = "comment" ∧
    RateLimiter.getKey .connect = "follow" ∧
    RateLimiter.getKey .like = "like" ∧
    RateLimiter.getKey .comment = "comment" ∧
    RateLimiter.getKey .follow = "follow" ∧
    RateLimiter.getKey .unfollow = "unfollow" ∧
    RateLimiter.getKey .dm = "dm" ∧
    RateLimiter.getKey .post = "post" ∧
    rl.check p .view_story now = rl.check p .like now ∧
    rl.check p .view_profile now = rl.check p .like now ∧
    rl.check p .retweet now = rl.check p .like now ∧
    rl.check p .reply now = rl.check p .comment now ∧
    rl.check p .connect now = rl.check p .follow now ∧
    (rl.record p .view_story now).store p "like"
        = rl.store p "like" ++ [{ timestamp := now, action := .view_story }] ∧
    (rl.record p .view_profile now).store p "like"
        = rl.store p "like" ++ [{ timestamp := now, action := .view_profile }] ∧
    (rl.record p .retweet now).store p "like"
        = rl.store p "like" ++ [{ timestamp := now, action := .retweet }] ∧
    (rl.record p .reply now).store p "comment"
        = rl.store p "comment" ++ [{ timestamp := now, action := .reply }] ∧
    (rl.record p .connect now).store p "follow"
        = rl.store p "follow" ++ [{ timestamp := now, action := .connect }] := by
  refine ⟨rfl, rfl, rfl, rfl, rfl, rfl, rfl, rfl, rfl, rfl, rfl,
    rfl, rfl, rfl, rfl, rfl, ?_, ?_, ?_, ?_, ?_⟩ <;>
    simp [RateLimiter.record, RateLimiter.getKey]

/-- The rate limiter as constructed from the shipped configuration with an
empty store. -/
def shippedLimiter : RateLimiter :=
  { store := fun _ _ => []
    limits := defaultRateLimits }

/-- Claim C10: a configured ceiling of 0 (the shipped value of the `connect`
key on instagram and twitter) is not a block: `getLimit` returns the default
50 for it, indistinguishably from a missing ceiling, so a zero ceiling does
not disable the family. -/
theorem getLimit_zero_ceiling (rl : RateLimiter) (p : Platform) (k : String)
    (h : rl.limits p k = some 0) :
    rl.getLimit p k = 50 ∧
    rl.getLimit p k = RateLimiter.getLimit { rl with limits := fun _ _ => none } p k ∧
    defaultRateLimits .instagram "connect" = some 0 ∧
    defaultRateLimits .twitter "connect" = some 0 := by
  refine ⟨?_, ?_, rfl, rfl⟩ <;> simp [RateLimiter.getLimit, h]

/-- Witness for claim C10 at the shipped configuration. -/
theorem getLimit_zero_ceiling_witness :
    shippedLimiter.getLimit .instagram "connect" = 50 ∧
    shippedLimiter.getLimit .instagram "connect"
        = RateLimiter.getLimit { shippedLimiter with limits := fun _ _ => none }
            .instagram "connect" ∧
    defaultRateLimits .instagram "connect" = some 0 ∧
    defaultRateLimits .twitter "connect" = some 0 :=
  getLimit_zero_ceiling shippedLimiter .instagram "connect" (by decide)

/-- Claim C3: for every platform and session state, saving while the
context's cookie set lacks the platform's designated critical authentication
cookie with a non-empty value is a skip, not an error, and leaves every
previously persisted on-disk session file unchanged. -/
theorem saveSession_skips_without_critical_cookie (st : ManagerState) (p : Platform)
    (localStore : List (String × String)) (now : Int) (cookies : List Cookie)
    (hctx : st.contexts p = some cookies)
    (hmiss : ∀ c ∈ cookies, c.name = criticalCookie p → c.value = "") :
    (saveSession st p localStore now).1 = .skipped ∧
    (saveSession st p localStore now).2.files = st.files := by
  refine ⟨?_, ?_⟩ <;> (simp [saveSession, hctx]; rw [if_pos hmiss])

/-- A previously persisted valid linkedin session. -/
def sessionGood : Session :=
  { platform := .linkedin
    cookies := [{ name := "li_at", value := "tok" }]
    localStorage := []
    createdAt := 0
    updatedAt := 0 }

/-- A manager whose linkedin context is logged out (its `li_at` cookie has an
empty value) while a good session file is on disk. -/
def stateC3 : ManagerState :=
  { contexts := fun p =>
      if p = .linkedin then
        some [{ name := "li_at", value := "" }, { name := "bcookie", value := "v" }]
      else none
    files := fun p => if p = .linkedin then some (some sessionGood) else none }

/-- Witness for claim C3: the logged-out save is skipped and the good file
survives. -/
theorem saveSession_skips_witness :
    (saveSession stateC3 .linkedin [] 99).1 = .skipped ∧
    (saveSession stateC3 .linkedin [] 99).2.files = stateC3.files :=
  saveSession_skips_without_critical_cookie stateC3 .linkedin [] 99
    [{ name := "li_at", value := "" }, { name := "bcookie", value := "v" }]
    (by decide) (by decide)

/-- Claim C4: session restore never raises; a stored session whose
`updatedAt` is more than 7 days before `now` yields `false` with the whole
state (in particular the stale file) left in place, and both an absent and a
malformed session file also yield `false` with nothing changed. -/
theorem restoreSession_soft_expiry (st : ManagerState) (p : Platform) (now : Int)
    (s : Session)
    (hfile : st.files p = some (some s))
    (hold : SESSION_MAX_AGE < now - s.updatedAt) :
    (restoreSession st p now).1 = false ∧
    (restoreSession st p now).2 = st ∧
    restoreSession { st with files := fun q => if q = p then none else st.files q } p now
        = (false, { st with files := fun q => if q = p then none else st.files q }) ∧
    restoreSession { st with files := fun q => if q = p then some none else st.files q } p now
        = (false, { st with files := fun q => if q = p then some none else st.files q }) := by
  refine ⟨?_, ?_, ?_, ?_⟩ <;> simp [restoreSession, hfile, hold]

/-- A stale twitter session: `updatedAt = 0`. -/
def sessionStale : Session :=
  { platform := .twitter
    cookies := [{ name := "auth_token", value := "t" }]
    localStorage := []
    createdAt := 0
    updatedAt := 0 }

/-- A manager with only the stale twitter session file on disk. -/
def stateC4 : ManagerState :=
  { contexts := fun _ => none
    files := fun p => if p = .twitter then some (some sessionStale) else none }

/-- Witness for claim C4: restoring the 7-days-plus-stale session reports
NotFound and leaves the file in place. -/
theorem restoreSession_soft_expiry_witness :
    (restoreSession stateC4 .twitter (SESSION_MAX_AGE + 1)).1 = false ∧
    (restoreSession stateC4 .twitter (SESSION_MAX_AGE + 1)).2 = stateC4 ∧
    restoreSession { stateC4 with files := fun q => if q = .twitter then none else stateC4.files q }
        .twitter (SESSION_MAX_AGE + 1)
        = (false, { stateC4 with files := fun q => if q = .twitter then none else stateC4.files q }) ∧
    restoreSession { stateC4 with files := fun q => if q = .twitter then some none else stateC4.files q }
        .twitter (SESSION_MAX_AGE + 1)
        = (false, { stateC4 with files := fun q => if q = .twitter then some none else stateC4.files q }) :=
  restoreSession_soft_expiry stateC4 .twitter (SESSION_MAX_AGE + 1) sessionStale
    (by decide) (by decide)

/-- `check` written out explicitly (the definition with its lets expanded);
used to reason about successive checks. -/
theorem check_eq (rl : RateLimiter) (p : Platform) (a : ActionType) (now : Int) :
    rl.check p a now =
      ({ remaining := rl.getLimit p (RateLimiter.getKey a) -
            ((rl.store p (RateLimiter.getKey a)).filter
              (fun r => decide (now - DAY_MS < r.timestamp))).length
         total := rl.getLimit p (RateLimiter.getKey a)
         resetAt :=
           (match (rl.store p (RateLimiter.getKey a)).filter
               (fun r => decide (now - DAY_MS < r.timestamp)) with
            | [] => now + DAY_MS
            | r :: _ => r.timestamp + DAY_MS)
         allowed := decide (0 < rl.getLimit p (RateLimiter.getKey a) -
            ((rl.store p (RateLimiter.getKey a)).filter
              (fun r => decide (now - DAY_MS < r.timestamp))).length) },
       { store := fun p1 k1 =>
           if p1 = p ∧ k1 = RateLimiter.getKey a then
             (rl.store p (RateLimiter.getKey a)).filter
               (fun r => decide (now - DAY_MS < r.timestamp))
           else rl.store p1 k1
         limits := rl.limits }) := rfl

/-- Checking again, at the same instant, on the limiter a `check` returned
changes nothing: pruning is idempotent, so the status and the limiter are
the same. -/
theorem check_stable (rl : RateLimiter) (p : Platform) (a : ActionType) (now : Int) :
    (rl.check p a now).2.check p a now = rl.check p a now := by
  have hfilter : ∀ l : List ActionRecord,
      (l.filter fun r => decide (now - DAY_MS < r.timestamp)).filter
          (fun r => decide (now - DAY_MS < r.timestamp))
        = l.filter fun r => decide (now - DAY_MS < r.timestamp) := by
    intro l
    induction l with
    | nil => rfl
    | cons x xs ih =>
      by_cases h : now - DAY_MS < x.timestamp <;> simp [List.filter_cons, h, ih]
  have hgl : ∀ s : Platform → String → List ActionRecord,
      RateLimiter.getLimit { store := s, limits := rl.limits } p (RateLimiter.getKey a)
        = rl.getLimit p (RateLimiter.getKey a) := fun _ => rfl
  simp only [check_eq]
  simp [hfilter, hgl]
  funext p1 k1
  by_cases h : p1 = p ∧ k1 = RateLimiter.getKey a <;> simp [h]

/-- Claim C5: an invocation whose quota check reports not-allowed returns
the structured rate-limit failure immediately — success false, error
`"Rate limit exceeded"`, the observed window status attached — with no
navigation, no quota record and (by totality of the embedding) no throw;
this holds for every modelled action. -/
theorem rate_limited_immediate_failure (env : PageEnv) (rl : RateLimiter) (now : Int)
    (url user purl text : String) (note : Option String)
    (h1 : (rl.check .linkedin .like now).1.allowed = false)
    (h2 : (rl.check .instagram .like now).1.allowed = false)
    (h3 : (rl.check .linkedin .comment now).1.allowed = false)
    (h4 : (rl.check .linkedin .follow now).1.allowed = false)
    (h5 : (rl.check .instagram .follow now).1.allowed = false) :
    linkedInLike env rl now url =
      { result := createErrorResult .linkedin .like url "Rate limit exceeded"
          (rl.check .linkedin .like now).1
        limiter := (rl.check .linkedin .like now).2
        navigated := false, recorded := 0, typed := none } ∧
    instagramLike env rl now url =
      { result := createErrorResult .instagram .like url "Rate limit exceeded"
          (rl.check .instagram .like now).1
        limiter := (rl.check .instagram .like now).2
        navigated := false, recorded := 0, typed := none } ∧
    linkedInComment env rl now url text =
      { result := createErrorResult .linkedin .comment url "Rate limit exceeded"
          (rl.check .linkedin .comment now).1
        limiter := (rl.check .linkedin .comment now).2
        navigated := false, recorded := 0, typed := none } ∧
    linkedInFollow env rl now user =
      { result := createErrorResult .linkedin .follow user "Rate limit exceeded"
          (rl.check .linkedin .follow now).1
        limiter := (rl.check .linkedin .follow now).2
        navigated := false, recorded := 0, typed := none } ∧
    instagramFollow env rl now user =
      { result := createErrorResult .instagram .follow user "Rate limit exceeded"
          (rl.check .instagram .follow now).1
        limiter := (rl.check .instagram .follow now).2
        navigated := false, recorded := 0, typed := none } ∧
    linkedInConnect env rl now purl note =
      { result := createErrorResult .linkedin .connect purl "Rate limit exceeded"
          (rl.check .linkedin .follow now).1
        limiter := (rl.check .linkedin .follow now).2
        navigated := false, recorded := 0, typed := none } := by
  refine ⟨?_, ?_, ?_, ?_, ?_, ?_⟩
  · simp [linkedInLike, h1]
  · simp [instagramLike, h2]
  · simp [linkedInComment, h3]
  · simp [linkedInFollow, h4]
  · simp [instagramFollow, h5]
  · simp [linkedInConnect, h4]

/-- A page on which everything works: every selector matches, every wait
resolves, every click completes. -/
def envAllOk : PageEnv :=
  { nav := fun _ => true
    pre := fun _ => true
    post := fun _ => true
    wait := fun _ => true
    click := fun _ => true
    errMsg := fun _ => "Error" }

/-- An exhausted limiter: ceiling 1 everywhere with one fresh record under
every key, so every check at `now = DAY_MS` reports not-allowed. -/
def limiterExhausted : RateLimiter :=
  { store := fun _ _ => [{ timestamp := 1, action := .like }]
    limits := fun _ _ => some 1 }

/-- Witness for claim C5 at the exhausted limiter. -/
theorem rate_limited_immediate_failure_witness :
    (linkedInLike envAllOk limiterExhausted DAY_MS "u").result.success = false ∧
    (linkedInLike envAllOk limiterExhausted DAY_MS "u").result.error
        = some "Rate limit exceeded" ∧
    (linkedInLike envAllOk limiterExhausted DAY_MS "u").result.rateLimit
        = some (limiterExhausted.check .linkedin .like DAY_MS).1 ∧
    (linkedInLike envAllOk limiterExhausted DAY_MS "u").navigated = false ∧
    (linkedInLike envAllOk limiterExhausted DAY_MS "u").recorded = 0 ∧
    (instagramFollow envAllOk limiterExhausted DAY_MS "u").result.success = false ∧
    (instagramFollow envAllOk limiterExhausted DAY_MS "u").navigated = false ∧
    (instagramFollow envAllOk limiterExhausted DAY_MS "u").recorded = 0 := by
  have h := rate_limited_immediate_failure envAllOk limiterExhausted DAY_MS
    "u" "u" "u" "t" none (by decide) (by decide) (by decide) (by decide) (by decide)
  refine ⟨?_, ?_, ?_, ?_, ?_, ?_, ?_, ?_⟩
  · rw [h.1]; rfl
  · rw [h.1]; rfl
  · rw [h.1]; rfl
  · rw [h.1]
  · rw [h.1]
  · rw [h.2.2.2.2.1]; rfl
  · rw [h.2.2.2.2.1]
  · rw [h.2.2.2.2.1]


/-- Claim C8: an action against a target already in the desired state
returns success without performing the mutation and without recording quota
usage; in particular two consecutive follow calls against an already-followed
target both succeed and append no quota record at all (so at most once), and
like against an already-liked post and connect against an already-connected
profile behave the same way. -/
theorem already_satisfied_idempotent (env : PageEnv) (rl : RateLimiter) (now : Int)
    (user url purl : String)
    (hnavU : env.nav user = true) (hnavL : env.nav url = true) (hnavC : env.nav purl = true)
    (hLIfollowed : env.pre LinkedInSel.followingButton = true)
    (hIGfollowed : env.pre InstagramSel.unfollowButton = true)
    (hliked : env.pre LinkedInSel.unlikeButton = true)
    (hconnected : env.pre LinkedInSel.messageButton = true)
    (hallowF : (rl.check .linkedin .follow now).1.allowed = true)
    (hallowIG : (rl.check .instagram .follow now).1.allowed = true)
    (hallowL : (rl.check .linkedin .like now).1.allowed = true) :
    (linkedInFollow env rl now user).result.success = true ∧
    (linkedInFollow env rl now user).recorded = 0 ∧
    (linkedInFollow env (linkedInFollow env rl now user).limiter now user).result.success
        = true ∧
    (linkedInFollow env (linkedInFollow env rl now user).limiter now user).recorded = 0 ∧
    (instagramFollow env rl now user).result.success = true ∧
    (instagramFollow env rl now user).recorded = 0 ∧
    (linkedInLike env rl now url).result.success = true ∧
    (linkedInLike env rl now url).recorded = 0 ∧
    (linkedInConnect env rl now purl none).result.success = true ∧
    (linkedInConnect env rl now purl none).recorded = 0 := by
  have hout : linkedInFollow env rl now user =
      { result := createResult .linkedin .follow user (rl.check .linkedin .follow now).1
        limiter := (rl.check .linkedin .follow now).2
        navigated := true, recorded := 0, typed := none } := by
    simp [linkedInFollow, hallowF, hnavU, hLIfollowed]
  have hallow2 :
      ((rl.check .linkedin .follow now).2.check .linkedin .follow now).1.allowed = true := by
    rw [check_stable]
    exact hallowF
  have hout2 : linkedInFollow env (rl.check .linkedin .follow now).2 now user =
      { result := createResult .linkedin .follow user
          ((rl.check .linkedin .follow now).2.check .linkedin .follow now).1
        limiter := ((rl.check .linkedin .follow now).2.check .linkedin .follow now).2
        navigated := true, recorded := 0, typed := none } := by
    simp [linkedInFollow, hallow2, hnavU, hLIfollowed]
  have hlim : (linkedInFollow env rl now user).limiter = (rl.check .linkedin .follow now).2 := by
    rw [hout]
  refine ⟨?_, ?_, ?_, ?_, ?_, ?_, ?_, ?_, ?_, ?_⟩
  · rw [hout]; rfl
  · rw [hout]
  · rw [hlim, hout2]; rfl
  · rw [hlim, hout2]
  · simp [instagramFollow, hallowIG, hnavU, hIGfollowed, createResult]
  · simp [instagramFollow, hallowIG, hnavU, hIGfollowed]
  · simp [linkedInLike, hallowL, hnavL, hliked, createResult]
  · simp [linkedInLike, hallowL, hnavL, hliked]
  · simp [linkedInConnect, hallowF, hnavC, hconnected, createResult]
  · simp [linkedInConnect, hallowF, hnavC, hconnected]

/-- Witness for claim C8 at the all-ok page (every "already satisfied"
indicator present) and the fresh shipped limiter. -/
theorem already_satisfied_idempotent_witness :
    (linkedInFollow envAllOk shippedLimiter DAY_MS "u").result.success = true ∧
    (linkedInFollow envAllOk shippedLimiter DAY_MS "u").recorded = 0 ∧
    (linkedInFollow envAllOk
        (linkedInFollow envAllOk shippedLimiter DAY_MS "u").limiter DAY_MS "u").result.success
        = true ∧
    (linkedInFollow envAllOk
        (linkedInFollow envAllOk shippedLimiter DAY_MS "u").limiter DAY_MS "u").recorded = 0 ∧
    (instagramFollow envAllOk shippedLimiter DAY_MS "u").result.success = true ∧
    (instagramFollow envAllOk shippedLimiter DAY_MS "u").recorded = 0 ∧
    (linkedInLike envAllOk shippedLimiter DAY_MS "p").result.success = true ∧
    (linkedInLike envAllOk shippedLimiter DAY_MS "p").recorded = 0 ∧
    (linkedInConnect envAllOk shippedLimiter DAY_MS "c" none).result.success = true ∧
    (linkedInConnect envAllOk shippedLimiter DAY_MS "c" none).recorded = 0 :=
  already_satisfied_idempotent envAllOk shippedLimiter DAY_MS "u" "p" "c"
    rfl rfl rfl rfl rfl rfl rfl (by decide) (by decide) (by decide)


/-- A page where the like buttons are present and the click completes, but
the post-click read-back never shows the Unlike state. -/
def envNoReadback : PageEnv :=
  { nav := fun _ => true
    pre := fun s =>
      if s = LinkedInSel.unlikeButton then false
      else if s = InstagramSel.unlikeButton then false
      else if s = InstagramSel.unfollowButton then false
      else if s = LinkedInSel.followingButton then false
      else true
    post := fun _ => false
    wait := fun _ => true
    click := fun _ => true
    errMsg := fun _ => "Error" }

/-- Counterexample to claim C2: `LinkedInHandler.like` performs no
post-action verification read-back — on a page whose read-back state never
shows the post as liked it still records the action against the quota gate
and reports success, while `InstagramHandler.like` on the same page records
nothing and fails. -/
theorem linkedInLike_records_without_verification :
    (linkedInLike envNoReadback shippedLimiter DAY_MS "post1").recorded = 1 ∧
    (linkedInLike envNoReadback shippedLimiter DAY_MS "post1").result.success = true ∧
    envNoReadback.post LinkedInSel.unlikeButton = false ∧
    (instagramLike envNoReadback shippedLimiter DAY_MS "post1").recorded = 0 ∧
    (instagramLike envNoReadback shippedLimiter DAY_MS "post1").result.success = false := by
  refine ⟨by decide, by decide, rfl, by decide, by decide⟩

/-- Claim C2 (amended): element-not-found yields a failure with no quota
record for every modelled action (both likes, comment, both follows,
connect); Instagram like and follow record exactly when the post-action
read-back confirms the mutated state, and their success mirrors that
read-back; LinkedIn like and comment perform no read-back at all — their
outcome is unchanged under any replacement of the page's post-click state —
and record once their click sequence completes. -/
theorem record_on_success_policy (env1 env2 : PageEnv) (rl : RateLimiter) (now : Int)
    (url text : String) (f : String → Bool)
    (hallowIG : (rl.check .instagram .like now).1.allowed = true)
    (hallowLI : (rl.check .linkedin .like now).1.allowed = true)
    (hallowC : (rl.check .linkedin .comment now).1.allowed = true)
    (hallowLF : (rl.check .linkedin .follow now).1.allowed = true)
    (hallowIGF : (rl.check .instagram .follow now).1.allowed = true)
    (hnav1 : env1.nav url = true) (hnav2 : env2.nav url = true)
    (h1a : env1.pre InstagramSel.unlikeButton = false)
    (h1b : env1.pre InstagramSel.likeButton = false)
    (h1c : env1.pre LinkedInSel.unlikeButton = false)
    (h1d : env1.pre LinkedInSel.likeButton = false)
    (h1e : env1.pre LinkedInSel.commentButton = false)
    (h1f : env1.wait LinkedInSel.commentInput = false)
    (h1g : env1.pre LinkedInSel.followingButton = false)
    (h1h : env1.pre LinkedInSel.followButton = false)
    (h1i : env1.pre InstagramSel.unfollowButton = false)
    (h1j : env1.pre InstagramSel.followButton = false)
    (h1k : env1.pre LinkedInSel.messageButton = false)
    (h1l : env1.pre LinkedInSel.pendingButton = false)
    (h1m : env1.pre LinkedInSel.connectButton = false)
    (h2a : env2.pre InstagramSel.unlikeButton = false)
    (h2b : env2.pre InstagramSel.likeButton = true)
    (h2c : env2.click InstagramSel.likeButton = true)
    (h2d : env2.pre InstagramSel.unfollowButton = false)
    (h2e : env2.pre InstagramSel.followButton = true)
    (h2f : env2.click InstagramSel.followButton = true)
    (h2g : env2.click LinkedInSel.commentButton = true)
    (h2h : env2.wait LinkedInSel.commentInput = true)
    (h2i : env2.click LinkedInSel.commentInput = true)
    (h2j : env2.click LinkedInSel.commentSubmit = true) :
    (instagramLike env1 rl now url).result.success = false ∧
    (instagramLike env1 rl now url).recorded = 0 ∧
    (instagramLike env1 rl now url).result.error = some "Like button not found" ∧
    (linkedInLike env1 rl now url).result.success = false ∧
    (linkedInLike env1 rl now url).recorded = 0 ∧
    (linkedInLike env1 rl now url).result.error = some "Like button not found" ∧
    (linkedInComment env1 rl now url text).result.success = false ∧
    (linkedInComment env1 rl now url text).recorded = 0 ∧
    (linkedInComment env1 rl now url text).result.error = some "Comment input not found" ∧
    (linkedInFollow env1 rl now url).result.success = false ∧
    (linkedInFollow env1 rl now url).recorded = 0 ∧
    (linkedInFollow env1 rl now url).result.error = some "Follow button not found" ∧
    (instagramFollow env1 rl now url).result.success = false ∧
    (instagramFollow env1 rl now url).recorded = 0 ∧
    (instagramFollow env1 rl now url).result.error = some "Follow button not found" ∧
    (linkedInConnect env1 rl now url none).result.success = false ∧
    (linkedInConnect env1 rl now url none).recorded = 0 ∧
    (linkedInConnect env1 rl now url none).result.error = some "Connect button not found" ∧
    (instagramLike env2 rl now url).recorded
        = (if env2.post InstagramSel.unlikeButton then 1 else 0) ∧
    (instagramLike env2 rl now url).result.success = env2.post InstagramSel.unlikeButton ∧
    (instagramFollow env2 rl now url).recorded
        = (if env2.post InstagramSel.unfollowButton then 1 else 0) ∧
    (instagramFollow env2 rl now url).result.success
        = env2.post InstagramSel.unfollowButton ∧
    (linkedInComment env2 rl now url text).recorded = 1 ∧
    (linkedInComment env2 rl now url text).result.success = true ∧
    linkedInComment { env2 with post := f } rl now url text
        = linkedInComment env2 rl now url text ∧
    linkedInLike { env2 with post := f } rl now url = linkedInLike env2 rl now url := by
  refine ⟨?_, ?_, ?_, ?_, ?_, ?_, ?_, ?_, ?_, ?_, ?_, ?_, ?_, ?_, ?_, ?_, ?_, ?_,
    ?_, ?_, ?_, ?_, ?_, ?_, ?_, ?_⟩
  · simp [instagramLike, hallowIG, hnav1, h1a, h1b, createErrorResult]
  · simp [instagramLike, hallowIG, hnav1, h1a, h1b]
  · simp [instagramLike, hallowIG, hnav1, h1a, h1b, createErrorResult]
  · simp [linkedInLike, hallowLI, hnav1, h1c, h1d, createErrorResult]
  · simp [linkedInLike, hallowLI, hnav1, h1c, h1d]
  · simp [linkedInLike, hallowLI, hnav1, h1c, h1d, createErrorResult]
  · simp [linkedInComment, hallowC, hnav1, h1e, h1f, createErrorResult]
  · simp [linkedInComment, hallowC, hnav1, h1e, h1f]
  · simp [linkedInComment, hallowC, hnav1, h1e, h1f, createErrorResult]
  · simp [linkedInFollow, hallowLF, hnav1, h1g, h1h, createErrorResult]
  · simp [linkedInFollow, hallowLF, hnav1, h1g, h1h]
  · simp [linkedInFollow, hallowLF, hnav1, h1g, h1h, createErrorResult]
  · simp [instagramFollow, hallowIGF, hnav1, h1i, h1j, createErrorResult]
  · simp [instagramFollow, hallowIGF, hnav1, h1i, h1j]
  · simp [instagramFollow, hallowIGF, hnav1, h1i, h1j, createErrorResult]
  · simp [linkedInConnect, hallowLF, hnav1, h1k, h1l, h1m, createErrorResult]
  · simp [linkedInConnect, hallowLF, hnav1, h1k, h1l, h1m]
  · simp [linkedInConnect, hallowLF, hnav1, h1k, h1l, h1m, createErrorResult]
  · cases hpost : env2.post InstagramSel.unlikeButton <;>
      simp [instagramLike, hallowIG, hnav2, h2a, h2b, h2c, hpost]
  · cases hpost : env2.post InstagramSel.unlikeButton <;>
      simp [instagramLike, hallowIG, hnav2, h2a, h2b, h2c, hpost,
        createResult, createErrorResult]
  · cases hpost : env2.post InstagramSel.unfollowButton <;>
      simp [instagramFollow, hallowIGF, hnav2, h2d, h2e, h2f, hpost]
  · cases hpost : env2.post InstagramSel.unfollowButton <;>
      simp [instagramFollow, hallowIGF, hnav2, h2d, h2e, h2f, hpost,
        createResult, createErrorResult]
  · simp [linkedInComment, hallowC, hnav2, h2g, h2h, h2i, h2j]
  · simp [linkedInComment, hallowC, hnav2, h2g, h2h, h2i, h2j, createResult]
  · simp [linkedInComment]
  · simp [linkedInLike]

/-- A page with nothing on it: every selector search comes back empty and
every element wait times out. -/
def envNothingFound : PageEnv :=
  { envAllOk with pre := fun _ => false, wait := fun _ => false }

/-- Witness for claim C2 (amended) at concrete pages: an empty page and the
no-read-back page with the read-back function replaced. -/
theorem record_on_success_policy_witness :
    (instagramLike envNothingFound shippedLimiter DAY_MS "post1").result.success = false ∧
    (instagramLike envNothingFound shippedLimiter DAY_MS "post1").recorded = 0 ∧
    (instagramLike envNothingFound shippedLimiter DAY_MS "post1").result.error
        = some "Like button not found" ∧
    (linkedInLike envNothingFound shippedLimiter DAY_MS "post1").result.success = false ∧
    (linkedInLike envNothingFound shippedLimiter DAY_MS "post1").recorded = 0 ∧
    (linkedInLike envNothingFound shippedLimiter DAY_MS "post1").result.error
        = some "Like button not found" ∧
    (linkedInComment envNothingFound shippedLimiter DAY_MS "post1" "t").result.success
        = false ∧
    (linkedInComment envNothingFound shippedLimiter DAY_MS "post1" "t").recorded = 0 ∧
    (linkedInComment envNothingFound shippedLimiter DAY_MS "post1" "t").result.error
        = some "Comment input not found" ∧
    (linkedInFollow envNothingFound shippedLimiter DAY_MS "post1").result.success = false ∧
    (linkedInFollow envNothingFound shippedLimiter DAY_MS "post1").recorded = 0 ∧
    (linkedInFollow envNothingFound shippedLimiter DAY_MS "post1").result.error
        = some "Follow button not found" ∧
    (instagramFollow envNothingFound shippedLimiter DAY_MS "post1").result.success = false ∧
    (instagramFollow envNothingFound shippedLimiter DAY_MS "post1").recorded = 0 ∧
    (instagramFollow envNothingFound shippedLimiter DAY_MS "post1").result.error
        = some "Follow button not found" ∧
    (linkedInConnect envNothingFound shippedLimiter DAY_MS "post1" none).result.success
        = false ∧
    (linkedInConnect envNothingFound shippedLimiter DAY_MS "post1" none).recorded = 0 ∧
    (linkedInConnect envNothingFound shippedLimiter DAY_MS "post1" none).result.error
        = some "Connect button not found" ∧
    (instagramLike envNoReadback shippedLimiter DAY_MS "post1").recorded
        = (if envNoReadback.post InstagramSel.unlikeButton then 1 else 0) ∧
    (instagramLike envNoReadback shippedLimiter DAY_MS "post1").result.success
        = envNoReadback.post InstagramSel.unlikeButton ∧
    (instagramFollow envNoReadback shippedLimiter DAY_MS "post1").recorded
        = (if envNoReadback.post InstagramSel.unfollowButton then 1 else 0) ∧
    (instagramFollow envNoReadback shippedLimiter DAY_MS "post1").result.success
        = envNoReadback.post InstagramSel.unfollowButton ∧
    (linkedInComment envNoReadback shippedLimiter DAY_MS "post1" "t").recorded = 1 ∧
    (linkedInComment envNoReadback shippedLimiter DAY_MS "post1" "t").result.success = true ∧
    linkedInComment { envNoReadback with post := fun _ => true } shippedLimiter DAY_MS
        "post1" "t"
        = linkedInComment envNoReadback shippedLimiter DAY_MS "post1" "t" ∧
    linkedInLike { envNoReadback with post := fun _ => true } shippedLimiter DAY_MS "post1"
        = linkedInLike envNoReadback shippedLimiter DAY_MS "post1" :=
  record_on_success_policy envNothingFound envNoReadback shippedLimiter DAY_MS "post1" "t"
    (fun _ => true) (by decide) (by decide) (by decide) (by decide) (by decide)
    rfl rfl rfl rfl rfl rfl rfl rfl rfl rfl rfl rfl rfl rfl rfl
    (by decide) (by decide) rfl (by decide) (by decide) rfl rfl rfl rfl rfl

/-- Counterexample to claim C6: no normalization pass runs before
submission — the LinkedIn comment path types the payload verbatim, so the
em-dash input is submitted unchanged rather than as the claimed normalized
string (which is exactly what the never-invoked `sanitizeText` would have
produced). -/
theorem comment_submits_unsanitized :
    (linkedInComment envAllOk shippedLimiter DAY_MS "post1"
        "Nice work — really clever").typed = some "Nice work — really clever" ∧
    "Nice work — really clever" ≠ "Nice work, really clever" ∧
    sanitizeText "Nice work — really clever" = "Nice work, really clever" := by
  refine ⟨by decide, by decide, by decide⟩

/-- Claim C6 (amended): `sanitizeText` implements exactly the described
normalization — the em-dash example maps to the claimed output with no
double punctuation — but the submission path does not invoke it: the comment
text is typed verbatim. -/
theorem sanitizeText_unused_on_submit (env : PageEnv) (rl : RateLimiter) (now : Int)
    (url text : String)
    (hallow : (rl.check .linkedin .comment now).1.allowed = true)
    (hnav : env.nav url = true)
    (hwait : env.wait LinkedInSel.commentInput = true)
    (hc1 : env.click LinkedInSel.commentButton = true)
    (hc2 : env.click LinkedInSel.commentInput = true)
    (hc3 : env.click LinkedInSel.commentSubmit = true) :
    (linkedInComment env rl now url text).typed = some text ∧
    sanitizeText "Nice work — really clever" = "Nice work, really clever" := by
  refine ⟨?_, by decide⟩
  simp [linkedInComment, hallow, hnav, hwait, hc1, hc2, hc3]

/-- Witness for claim C6 (amended) at the all-ok page. -/
theorem sanitizeText_unused_on_submit_witness :
    (linkedInComment envAllOk shippedLimiter DAY_MS "post1" "hello").typed = some "hello" ∧
    sanitizeText "Nice work — really clever" = "Nice work, really clever" :=
  sanitizeText_unused_on_submit envAllOk shippedLimiter DAY_MS "post1" "hello"
    (by decide) rfl rfl rfl rfl rfl

/-- Claim C7 (amended): the fallback-ladder revision of `clickHuman` always
attempts the standard click, attempts the forced click exactly when the
standard click fails, attempts the synthetic dispatchEvent exactly when both
fail, and completes without throwing exactly when some tier succeeds — so
success at any tier is identical for the caller.  (The plain older revision
attempts only the standard tier; see the counterexample.) -/
theorem clickHuman_fallback_ladder (env : ClickEnv) (sel : String) :
    ClickTier.standard ∈ (clickHuman env sel).1 ∧
    (ClickTier.forced ∈ (clickHuman env sel).1 ↔ env.standardOk sel = false) ∧
    (ClickTier.dispatchEvent ∈ (clickHuman env sel).1
        ↔ (env.standardOk sel = false ∧ env.forcedOk sel = false)) ∧
    (clickHuman env sel).2
        = (env.standardOk sel || env.forcedOk sel || env.dispatchOk sel) := by
  by_cases h1 : env.standardOk sel <;> by_cases h2 : env.forcedOk sel <;>
    simp [clickHuman, h1, h2]

/-- A page where the standard click fails but the forced click would
succeed. -/
def envClickForcedOnly : ClickEnv :=
  { standardOk := fun _ => false
    forcedOk := fun _ => true
    dispatchOk := fun _ => true }

/-- Counterexample to claim C7 as stated: the repository also carries the
plain `clickHuman` revision, which on a selector whose standard click fails
throws to the caller without ever attempting the forced tier that would have
succeeded (the ladder revision succeeds on the same page). -/
theorem clickHumanBase_no_fallback :
    (clickHumanBase envClickForcedOnly "button.like").2 = false ∧
    ClickTier.forced ∉ (clickHumanBase envClickForcedOnly "button.like").1 ∧
    envClickForcedOnly.forcedOk "button.like" = true ∧
    (clickHuman envClickForcedOnly "button.like").2 = true := by
  refine ⟨rfl, by decide, rfl, rfl⟩

end SocialCrabs
